import Mathlib

/-!
Shallow embedding of the Job Application Automation System (`src/app.py`)
for verification of its specification.

Modelling conventions:
* The sqlite database is a `Store` of typed row lists.  `execute_query`
  catches every exception and returns `False` (for writes) with the
  transaction rolled back, so a write is modelled as an atomic state
  transformer guarded by a boolean `dbOk` ("the underlying sqlite call
  succeeded"); on `dbOk = false` the store is unchanged and `false` is
  reported, exactly as `DatabaseManager.execute_query` behaves.
* JSON (de)serialisation of the settings blobs is the identity on the
  modelled values (`json.loads ∘ json.dumps = id` on these dicts), so
  settings rows store the parsed values directly.
* Python floats are modelled as rationals (`ℚ`); every literal involved
  (`0.5`, parsed decimal fractions) is exact.
* External collaborators (OpenAI client, SMTP server) are modelled as
  explicit outcome parameters enumerating the code paths the `try/except`
  blocks distinguish.
* SHA-256 (`hashlib.sha256(...).hexdigest()`) is modelled as an arbitrary
  function parameter `sha256hex : String → String`; the only property the
  code relies on is that it is a function (determinism).
-/

namespace JobApp

/-- Row of the `users` table (`id, username UNIQUE, password_hash, email`). -/
structure UserRow where
  id : String
  username : String
  password_hash : String
  email : String
deriving DecidableEq, Repr

/-- Row of the `profiles` table; `skills` and `target_positions` are stored as
comma-separated text, exactly as the Python code stores them. -/
structure ProfileRow where
  id : String
  user_id : String
  name : String
  skills : String
  experience : String
  summary : String
  target_positions : String
deriving DecidableEq, Repr

/-- Row of the `jobs` table (timestamps dropped; no claim depends on them). -/
structure JobRow where
  id : String
  title : String
  company : String
  location : String
  description : String
  url : String
  salary_range : String
  source : String
deriving DecidableEq, Repr

/-- Row of the `applications` table.  `notes` and `custom_answers` are
nullable columns that `apply_to_job`'s INSERT leaves NULL (`none`);
`response_received` defaults to 0. -/
structure ApplicationRow where
  id : String
  job_id : String
  profile_id : String
  user_id : String
  status : String
  applied_date : Nat
  cover_letter : String
  custom_answers : Option String
  response_received : Bool
  notes : Option String
deriving DecidableEq, Repr

/-- The email settings dict written by the Settings UI
(`from_email`, `password`, `smtp_server`, `enabled`). -/
structure EmailSettings where
  from_email : String
  password : String
  smtp_server : String
  enabled : Bool
deriving DecidableEq, Repr

/-- The automation settings dict written by the Settings UI. -/
structure AutomationSettings where
  auto_apply : Bool
  min_match_score : ℚ
  daily_limit : Nat
deriving DecidableEq, Repr

/-- The notification settings blob; never populated with named fields by the
code, kept as an opaque association list. -/
abbrev NotificationSettings := List (String × String)

/-- Row of the `settings` table (`user_id` PRIMARY KEY).  A category equal to
`none` models the empty JSON dict `{}` (the only writer,
`save_user_settings`, serialises `{}` for a missing category, and
`get_user_settings` parses NULL and `"{}"` to the same empty dict). -/
structure SettingsRow where
  user_id : String
  openai_api_key : String
  email_settings : Option EmailSettings
  automation_settings : Option AutomationSettings
  notification_settings : Option NotificationSettings
deriving DecidableEq, Repr

/-- The whole sqlite database. -/
structure Store where
  users : List UserRow
  profiles : List ProfileRow
  jobs : List JobRow
  applications : List ApplicationRow
  settings : List SettingsRow
deriving DecidableEq, Repr

/-- `DatabaseManager.execute_query` for a write statement: on success the
statement is applied atomically and `True` is returned; any sqlite exception
is caught, the transaction is never committed (state unchanged) and `False`
is returned. -/
def dbWrite (dbOk : Bool) (f : Store → Store) (s : Store) : Bool × Store :=
  if dbOk then (true, f s) else (false, s)

/-- `AuthManager.hash_password`: SHA-256 hex digest of the password. -/
def hashPassword (sha256hex : String → String) (password : String) : String :=
  sha256hex password

/-- `AuthManager.register_user`: INSERT INTO users; the statement fails (and
`execute_query` returns `False`) on a UNIQUE(username) or PRIMARY KEY(id)
violation or any other sqlite error (`dbOk = false`). -/
def registerUser (sha256hex : String → String) (dbOk : Bool)
    (newId username password email : String) (s : Store) : Bool × Store :=
  let password_hash := hashPassword sha256hex password
  if dbOk && s.users.all (fun u => u.username != username && u.id != newId) then
    (true, { s with users := s.users ++ [⟨newId, username, password_hash, email⟩] })
  else
    (false, s)

/-- `AuthManager.authenticate_user`: SELECT id FROM users WHERE username and
password_hash match; returns the first row's id, `None` when no row. -/
def authenticateUser (sha256hex : String → String)
    (username password : String) (s : Store) : Option String :=
  let h := hashPassword sha256hex password
  match s.users.filter (fun u => u.username == username && u.password_hash == h) with
  | [] => none
  | u :: _ => some u.id

/-- The `JobProfile` dataclass built by `apply_to_job` from a profile row. -/
structure JobProfile where
  id : String
  name : String
  skills : List String
  experience : String
  summary : String
  target_positions : List String
deriving DecidableEq, Repr

/-- Python `str.strip()` on the character list: drop whitespace from both
ends. -/
def stripChars (cs : List Char) : List Char :=
  ((cs.dropWhile Char.isWhitespace).reverse.dropWhile Char.isWhitespace).reverse

/-- Python `str.strip()`. -/
def pyStrip (s : String) : String := ⟨stripChars s.data⟩

/-- Python `str.split(',')` on the character list. -/
def splitCommaAux : List Char → List Char → List String
  | [], acc => [⟨acc.reverse⟩]
  | c :: cs, acc =>
    if c = ',' then String.mk acc.reverse :: splitCommaAux cs []
    else splitCommaAux cs (c :: acc)

/-- `x.split(',') if x else []`: an empty string is falsy in Python. -/
def splitCommaIfNonempty (s : String) : List String :=
  if s = "" then [] else splitCommaAux s.data []

/-- Outcome of one OpenAI chat-completion attempt, as the `try/except`
blocks of `AIAssistant` distinguish the paths:
`unavailable` = `self.client is None` (client construction failed),
`err` = the API call raised, `content` = the response text. -/
inductive AIOutcome (α : Type) where
  | unavailable : AIOutcome α
  | err : AIOutcome α
  | content : α → AIOutcome α
deriving DecidableEq, Repr

/-- `AIAssistant._fallback_cover_letter`: deterministic template
interpolating job title, company, experience, the first three skills and the
summary. -/
def fallbackCoverLetter (job : JobRow) (profile : JobProfile) : String :=
  "Dear Hiring Manager,\n\nI am writing to express my strong interest in the "
    ++ job.title ++ " position at " ++ job.company ++ ". With my background in "
    ++ profile.experience ++ " and expertise in "
    ++ String.intercalate ", " (profile.skills.take 3)
    ++ ", I am excited about the opportunity to contribute to your team.\n\n"
    ++ profile.summary
    ++ "\n\nI am particularly drawn to this role because it aligns perfectly with my career goals and allows me to leverage my skills in a meaningful way. I would welcome the opportunity to discuss how my experience can benefit your organization.\n\nThank you for your consideration.\n\nSincerely,\n[Your Name]"

/-- `AIAssistant.generate_cover_letter`: returns the stripped response on
success; when the client is missing, or the API call raises, the fallback
template is returned (the inner `try/except` catches everything). -/
def generateCoverLetter (job : JobRow) (profile : JobProfile)
    (o : AIOutcome String) : String :=
  match o with
  | .unavailable => fallbackCoverLetter job profile
  | .err => fallbackCoverLetter job profile
  | .content text => pyStrip text

/-- Python dict assignment `d[k] = v`: overwrite in place when the key
exists, else append (insertion order preserved). -/
def dictInsert (d : List (String × String)) (k v : String) :
    List (String × String) :=
  if d.any (fun p => p.1 == k) then
    d.map (fun p => if p.1 == k then (k, v) else p)
  else
    d ++ [(k, v)]

/-- The `for question in questions` loop of
`AIAssistant.generate_qa_answers`.  The loop body sits inside a single
`try`, so the first API failure raises out of the loop and the `except`
returns the answers accumulated so far. -/
def generateQaAnswersGo (f : String → Except Unit String) :
    List String → List (String × String) → List (String × String)
  | [], acc => acc
  | q :: rest, acc =>
    match f q with
    | .ok a => generateQaAnswersGo f rest (dictInsert acc q (pyStrip a))
    | .error _ => acc

/-- `AIAssistant.generate_qa_answers`: empty dict when the client is missing
(`client = none`); otherwise the per-question loop with the
abort-on-first-failure behaviour of the enclosing `try`. -/
def generateQaAnswers (client : Option (String → Except Unit String))
    (questions : List String) : List (String × String) :=
  match client with
  | none => []
  | some f => generateQaAnswersGo f questions []

/-- `re.findall(r'0?\.\d+|[01]', s)[0]`, first alternative at the current
position: an optional `0`, a dot, then one or more digits (greedy).  Returns
the matched characters. -/
def matchAlt1At : List Char → Option (List Char)
  | '0' :: '.' :: c :: cs =>
    if c.isDigit then some ('0' :: '.' :: c :: cs.takeWhile Char.isDigit) else none
  | '.' :: c :: cs =>
    if c.isDigit then some ('.' :: c :: cs.takeWhile Char.isDigit) else none
  | _ => none

/-- Leftmost match of the pattern `0?\.\d+|[01]`: at each position try the
fraction alternative first, then a single `0` or `1`, then advance. -/
def firstMatch : List Char → Option (List Char)
  | [] => none
  | c :: cs =>
    match matchAlt1At (c :: cs) with
    | some m => some m
    | none => if c = '0' ∨ c = '1' then some [c] else firstMatch cs

/-- Value of a big-endian digit string, accumulator form. -/
def digitsValAux : List Char → Nat → Nat
  | [], a => a
  | c :: cs, a => digitsValAux cs (10 * a + (c.toNat - 48))

/-- Value of a big-endian digit string. -/
def digitsVal (ds : List Char) : Nat := digitsValAux ds 0

/-- `float(m)` of a string matched by the pattern: `".d+"` and `"0.d+"` are
decimal fractions, `"0"` and `"1"` their integer values. -/
def matchToRat : List Char → ℚ
  | '0' :: '.' :: ds => (digitsVal ds : ℚ) / ((10 : ℚ) ^ ds.length)
  | '.' :: ds => (digitsVal ds : ℚ) / ((10 : ℚ) ^ ds.length)
  | ['1'] => 1
  | _ => 0

/-- `AIAssistant.calculate_job_match_score`: 0.5 when the client is missing;
on API success the response is stripped and the first substring matching
`0?\.\d+|[01]` is converted by `float`; if the pattern does not occur the
indexing `[0]` raises `IndexError`, which the `except` turns into 0.5, as it
does any API error. -/
def calculateJobMatchScore (o : AIOutcome String) : ℚ :=
  match o with
  | .unavailable => 1 / 2
  | .err => 1 / 2
  | .content s =>
    match firstMatch (pyStrip s).data with
    | some m => matchToRat m
    | none => 1 / 2

/-- The dict returned by `JobAutomationApp.get_user_settings` when a
settings row exists (`openai_api_key` normalised to a string, each JSON blob
parsed, NULL parsed to the empty dict). -/
structure SettingsView where
  openai_api_key : String
  email_settings : Option EmailSettings
  automation_settings : Option AutomationSettings
  notification_settings : Option NotificationSettings
deriving DecidableEq, Repr

/-- `JobAutomationApp.get_user_settings`: `none` models the empty dict `{}`
returned when no settings row exists for the user. -/
def getUserSettings (s : Store) (uid : String) : Option SettingsView :=
  match s.settings.find? (fun r => r.user_id == uid) with
  | some r =>
    some { openai_api_key := r.openai_api_key
           email_settings := r.email_settings
           automation_settings := r.automation_settings
           notification_settings := r.notification_settings }
  | none => none

/-- The partial update dict passed to `JobAutomationApp.save_user_settings`;
`none` in a field means the key is absent from the update. -/
structure SettingsUpdate where
  openai_api_key : Option String
  email_settings : Option (Option EmailSettings)
  automation_settings : Option (Option AutomationSettings)
  notification_settings : Option (Option NotificationSettings)
deriving DecidableEq, Repr

/-- `current_settings = get_user_settings(); current_settings.update(upd)`
followed by `current_settings.get(key, default)` for each column: a present
update key wins, else the stored value, else the default (`''` / `{}`). -/
def mergedSettings (cur : Option SettingsView) (upd : SettingsUpdate) :
    SettingsView :=
  { openai_api_key :=
      upd.openai_api_key.getD ((cur.map SettingsView.openai_api_key).getD "")
    email_settings :=
      upd.email_settings.getD ((cur.map SettingsView.email_settings).getD none)
    automation_settings :=
      upd.automation_settings.getD
        ((cur.map SettingsView.automation_settings).getD none)
    notification_settings :=
      upd.notification_settings.getD
        ((cur.map SettingsView.notification_settings).getD none) }

/-- `INSERT OR REPLACE INTO settings` with `user_id` as PRIMARY KEY: any
existing row for the user is replaced by the new one. -/
def replaceSettingsRow (rows : List SettingsRow) (uid : String)
    (v : SettingsView) : List SettingsRow :=
  rows.filter (fun r => r.user_id != uid)
    ++ [⟨uid, v.openai_api_key, v.email_settings, v.automation_settings,
         v.notification_settings⟩]

/-- `JobAutomationApp.save_user_settings`: read-merge-replace. -/
def saveUserSettings (dbOk : Bool) (upd : SettingsUpdate) (uid : String)
    (s : Store) : Bool × Store :=
  let merged := mergedSettings (getUserSettings s uid) upd
  dbWrite dbOk
    (fun st => { st with settings := replaceSettingsRow st.settings uid merged }) s

/-- `JobAutomationApp.get_user_email`: the user's email, with the empty
string treated as falsy (`None`). -/
def getUserEmail (s : Store) (uid : String) : Option String :=
  match s.users.find? (fun u => u.id == uid) with
  | some u => if u.email = "" then none else some u.email
  | none => none

/-- The profile dicts returned by `JobAutomationApp.get_user_profiles`
(id, name, skills, experience, summary, target_positions). -/
structure ProfileView where
  id : String
  name : String
  skills : String
  experience : String
  summary : String
  target_positions : String
deriving DecidableEq, Repr

/-- `JobAutomationApp.get_user_profiles`: SELECT six columns FROM profiles
WHERE user_id matches. -/
def getUserProfiles (s : Store) (uid : String) : List ProfileView :=
  (s.profiles.filter (fun p => p.user_id == uid)).map
    (fun p => { id := p.id, name := p.name, skills := p.skills,
                experience := p.experience, summary := p.summary,
                target_positions := p.target_positions })

/-- The application dicts returned by
`JobAutomationApp.get_user_applications` (inner join with jobs and
profiles; the ORDER BY applied_date is irrelevant to the claims and left
as store order). -/
structure AppView where
  id : String
  status : String
  applied_date : Nat
  cover_letter : String
  notes : Option String
  response_received : Bool
  job_title : String
  company : String
  profile_name : String
deriving DecidableEq, Repr

/-- `JobAutomationApp.get_user_applications`: applications of the user inner
joined with their job and profile rows. -/
def getUserApplications (s : Store) (uid : String) : List AppView :=
  (s.applications.filter (fun a => a.user_id == uid)).filterMap (fun a =>
    match s.jobs.find? (fun j => j.id == a.job_id),
          s.profiles.find? (fun p => p.id == a.profile_id) with
    | some j, some p =>
      some { id := a.id, status := a.status, applied_date := a.applied_date,
             cover_letter := a.cover_letter, notes := a.notes,
             response_received := a.response_received,
             job_title := j.title, company := j.company,
             profile_name := p.name }
    | _, _ => none)

/-- `NotificationManager.send_email_notification`: every SMTP failure is
caught and surfaced only as a `st.warning` text; success produces no
warning.  The function never touches the store and never raises. -/
def sendEmailNotification (_emailSettings : EmailSettings)
    (_subject _body _toEmail : String) (smtp : Except String Unit) :
    Option String :=
  match smtp with
  | .ok _ => none
  | .error e => some ("Email notification failed: " ++ e)

/-- Result of one `JobAutomationApp.apply_to_job` call: whether the success
path (`st.success`) or an error path (`st.error`) was taken, the
`st.warning` text a failed notification produced (if any), and the store
afterwards. -/
structure ApplyOutcome where
  succeeded : Bool
  notif_warning : Option String
  store : Store
deriving DecidableEq, Repr

/-- The inline template `apply_to_job` falls back to when
`generate_cover_letter` itself raises (its own `except` branch). -/
def shortCoverLetter (job : JobRow) : String :=
  "Dear Hiring Manager,\n\nI am interested in the " ++ job.title
    ++ " position at " ++ job.company ++ ".\n\nBest regards"

/-- `JobAutomationApp.apply_to_job`.
`assistant = none` models `st.session_state.ai_assistant is None` (cover
letter stays `""`); otherwise the assistant call is made with outcome `o`.
`outerRaise` models the outer `except` in `apply_to_job` itself — dead in
practice since `generate_cover_letter` catches internally, but kept for
faithfulness.  Steps: resolve the selected profile by name (error path on
failure, nothing written), build the cover letter, INSERT exactly one
applications row with status `'applied'`, and on success send the
best-effort notification when email notifications are enabled. -/
def applyToJob (dbOk : Bool) (assistant : Option (AIOutcome String))
    (outerRaise : Bool) (job : JobRow) (selectedProfileName : String)
    (profiles : List ProfileView) (userId appId : String) (now : Nat)
    (smtp : Except String Unit) (s : Store) : ApplyOutcome :=
  match profiles.find? (fun p => p.name == selectedProfileName) with
  | none => { succeeded := false, notif_warning := none, store := s }
  | some pd =>
    let profile : JobProfile :=
      { id := pd.id, name := pd.name,
        skills := splitCommaIfNonempty pd.skills,
        experience := pd.experience, summary := pd.summary,
        target_positions := splitCommaIfNonempty pd.target_positions }
    let cover_letter : String :=
      match assistant with
      | none => ""
      | some o =>
        if outerRaise then shortCoverLetter job
        else generateCoverLetter job profile o
    let app : ApplicationRow :=
      { id := appId, job_id := job.id, profile_id := pd.id, user_id := userId,
        status := "applied", applied_date := now,
        cover_letter := cover_letter, custom_answers := none,
        response_received := false, notes := none }
    let w := dbWrite dbOk
      (fun st => { st with applications := st.applications ++ [app] }) s
    if w.1 then
      let warning : Option String :=
        match getUserSettings w.2 userId with
        | some v =>
          match v.email_settings with
          | some es =>
            if es.enabled then
              match getUserEmail w.2 userId with
              | some addr =>
                sendEmailNotification es
                  ("Job Application Submitted - " ++ job.title)
                  ("Your application for " ++ job.title ++ " at "
                    ++ job.company ++ " has been submitted successfully.")
                  addr smtp
              | none => none
            else none
          | none => none
        | none => none
      { succeeded := true, notif_warning := warning, store := w.2 }
    else
      { succeeded := false, notif_warning := none, store := w.2 }

/-- `JobAutomationApp.update_application_status`: a single UPDATE guarded by
`id = ? AND user_id = ?`; `execute_query` returns `True` whenever the
statement executes, matching rows or not. -/
def updateApplicationStatus (dbOk : Bool) (appId status notes userId : String)
    (s : Store) : Bool × Store :=
  dbWrite dbOk
    (fun st =>
      { st with
        applications := st.applications.map (fun a =>
          if a.id == appId && a.user_id == userId then
            { a with status := status, notes := some notes }
          else a) }) s

/-- `JobAutomationApp.delete_user_account`: four independent DELETE
statements; each result is ignored. -/
def deleteUserAccount (ok1 ok2 ok3 ok4 : Bool) (uid : String) (s : Store) :
    Store :=
  let s1 := (dbWrite ok1 (fun st =>
    { st with applications := st.applications.filter (fun a => a.user_id != uid) }) s).2
  let s2 := (dbWrite ok2 (fun st =>
    { st with profiles := st.profiles.filter (fun p => p.user_id != uid) }) s1).2
  let s3 := (dbWrite ok3 (fun st =>
    { st with settings := st.settings.filter (fun r => r.user_id != uid) }) s2).2
  let s4 := (dbWrite ok4 (fun st =>
    { st with users := st.users.filter (fun u => u.id != uid) }) s3).2
  s4

/-- The settings part of the export document: the dict comprehension
`{k: v for k, v in settings.items() if k != 'openai_api_key'}` keeps every
settings key except `openai_api_key`. -/
structure ExportSettings where
  email_settings : Option EmailSettings
  automation_settings : Option AutomationSettings
  notification_settings : Option NotificationSettings
deriving DecidableEq, Repr

/-- The document built by `JobAutomationApp.export_user_data`
(`exported_at` timestamp dropped; no claim depends on it). -/
structure ExportData where
  profiles : List ProfileView
  applications : List AppView
  settings : ExportSettings
deriving DecidableEq, Repr

/-- `JobAutomationApp.export_user_data`: profiles, applications, and the
settings dict minus only the `openai_api_key` entry. -/
def exportUserData (s : Store) (uid : String) : ExportData :=
  { profiles := getUserProfiles s uid
    applications := getUserApplications s uid
    settings :=
      match getUserSettings s uid with
      | some v =>
        { email_settings := v.email_settings
          automation_settings := v.automation_settings
          notification_settings := v.notification_settings }
      | none => { email_settings := none, automation_settings := none,
                  notification_settings := none } }

/-! ## Supporting lemmas -/

theorem digit_toNat_le (c : Char) (h : c.isDigit = true) : c.toNat - 48 ≤ 9 := by
  unfold Char.isDigit at h
  simp at h
  obtain ⟨h1, h2⟩ := h
  have h2' : c.val.toNat ≤ 57 := by exact_mod_cast h2
  unfold Char.toNat
  omega

theorem digitsValAux_lt : ∀ ds : List Char, (∀ c ∈ ds, c.isDigit = true) →
    ∀ a : Nat, digitsValAux ds a < (a + 1) * 10 ^ ds.length := by
  intro ds
  induction ds with
  | nil => intro _ a; simp [digitsValAux]
  | cons c cs ih =>
    intro h a
    have hc : c.toNat - 48 ≤ 9 := digit_toNat_le c (h c (by simp))
    have hcs : ∀ x ∈ cs, x.isDigit = true := fun x hx => h x (by simp [hx])
    have h1 : digitsValAux cs (10 * a + (c.toNat - 48))
        < (10 * a + (c.toNat - 48) + 1) * 10 ^ cs.length := ih hcs _
    have h2 : (10 * a + (c.toNat - 48) + 1) * 10 ^ cs.length
        ≤ ((a + 1) * 10) * 10 ^ cs.length :=
      Nat.mul_le_mul (by omega) (Nat.le_refl _)
    have h3 : ((a + 1) * 10) * 10 ^ cs.length = (a + 1) * 10 ^ (c :: cs).length := by
      rw [List.length_cons, pow_succ]
      ring
    simp only [digitsValAux]
    omega

theorem digitsVal_lt (ds : List Char) (h : ∀ c ∈ ds, c.isDigit = true) :
    digitsVal ds < 10 ^ ds.length := by
  have h0 := digitsValAux_lt ds h 0
  simpa [digitsVal] using h0

theorem fracRat_range (ds : List Char) (h : ∀ c ∈ ds, c.isDigit = true) :
    0 ≤ (digitsVal ds : ℚ) / ((10 : ℚ) ^ ds.length)
      ∧ (digitsVal ds : ℚ) / ((10 : ℚ) ^ ds.length) ≤ 1 := by
  have hpos : (0 : ℚ) < (10 : ℚ) ^ ds.length := by positivity
  constructor
  · positivity
  · rw [div_le_one hpos]
    have hlt : (digitsVal ds : ℚ) < ((10 ^ ds.length : Nat) : ℚ) := by
      exact_mod_cast digitsVal_lt ds h
    calc (digitsVal ds : ℚ) ≤ ((10 ^ ds.length : Nat) : ℚ) := le_of_lt hlt
      _ = (10 : ℚ) ^ ds.length := by push_cast; ring

theorem matchAlt1At_range (cs m : List Char) (h : matchAlt1At cs = some m) :
    0 ≤ matchToRat m ∧ matchToRat m ≤ 1 := by
  unfold matchAlt1At at h
  split at h
  case h_1 c cs' =>
    split at h
    case isTrue hd =>
      obtain rfl : '0' :: '.' :: c :: cs'.takeWhile Char.isDigit = m :=
        Option.some.inj h
      have hds : ∀ x ∈ c :: cs'.takeWhile Char.isDigit, x.isDigit = true := by
        intro x hx
        rcases List.mem_cons.mp hx with rfl | hx
        · exact hd
        · exact List.mem_takeWhile_imp hx
      simpa [matchToRat] using fracRat_range _ hds
    case isFalse => exact absurd h (by simp)
  case h_2 c cs' =>
    split at h
    case isTrue hd =>
      obtain rfl : '.' :: c :: cs'.takeWhile Char.isDigit = m := Option.some.inj h
      have hds : ∀ x ∈ c :: cs'.takeWhile Char.isDigit, x.isDigit = true := by
        intro x hx
        rcases List.mem_cons.mp hx with rfl | hx
        · exact hd
        · exact List.mem_takeWhile_imp hx
      simpa [matchToRat] using fracRat_range _ hds
    case isFalse => exact absurd h (by simp)
  case h_3 => exact absurd h (by simp)

theorem firstMatch_range (cs m : List Char) (h : firstMatch cs = some m) :
    0 ≤ matchToRat m ∧ matchToRat m ≤ 1 := by
  induction cs with
  | nil => simp [firstMatch] at h
  | cons c cs ih =>
    unfold firstMatch at h
    cases halt : matchAlt1At (c :: cs) with
    | some m' =>
      rw [halt] at h
      obtain rfl : m' = m := Option.some.inj h
      exact matchAlt1At_range _ _ halt
    | none =>
      rw [halt] at h
      by_cases h01 : c = '0' ∨ c = '1'
      · simp only [h01, if_pos] at h
        obtain rfl : [c] = m := Option.some.inj h
        rcases h01 with rfl | rfl
        · simp [matchToRat]
        · simp [matchToRat]
      · simp only [h01, if_neg, not_false_iff] at h
        exact ih h

/-! ## C2: `compute_match_score` range and failure default -/

/-- Claim C2 (amended): `calculate_job_match_score` always returns a value in
[0, 1]; when the client is missing, the API call fails, or the response
contains no substring matching the numeric pattern, it returns exactly 0.5.
(The original claim's stronger clause — every response that cannot be parsed
as an in-range number yields 0.5 — is refuted by
`match_score_malformed_counterexample`.) -/
theorem match_score_range (o : AIOutcome String) :
    0 ≤ calculateJobMatchScore o ∧ calculateJobMatchScore o ≤ 1 ∧
      (∀ s : String, o = AIOutcome.content s → firstMatch (pyStrip s).data = none →
        calculateJobMatchScore o = 1 / 2) := by
  refine ⟨?_, ?_, ?_⟩
  · cases o with
    | unavailable => norm_num [calculateJobMatchScore]
    | err => norm_num [calculateJobMatchScore]
    | content s =>
      simp only [calculateJobMatchScore]
      cases hm : firstMatch (pyStrip s).data with
      | some m => exact (firstMatch_range _ _ hm).1
      | none => norm_num
  · cases o with
    | unavailable => norm_num [calculateJobMatchScore]
    | err => norm_num [calculateJobMatchScore]
    | content s =>
      simp only [calculateJobMatchScore]
      cases hm : firstMatch (pyStrip s).data with
      | some m => exact (firstMatch_range _ _ hm).2
      | none => norm_num
  · rintro s rfl hm
    simp [calculateJobMatchScore, hm]

/-- Witness for `match_score_range` at a concrete malformed response with no
numeric token: the score is in range and equals the 0.5 default. -/
theorem match_score_range_witness :
    0 ≤ calculateJobMatchScore (AIOutcome.content "no score here") ∧
      calculateJobMatchScore (AIOutcome.content "no score here") ≤ 1 ∧
      calculateJobMatchScore (AIOutcome.content "no score here") = 1 / 2 :=
  ⟨(match_score_range (AIOutcome.content "no score here")).1,
   (match_score_range (AIOutcome.content "no score here")).2.1,
   (match_score_range (AIOutcome.content "no score here")).2.2
     "no score here" rfl (by decide)⟩

/-- Counterexample to claim C2 as stated: the response `"2/10"` cannot be
parsed as a number in [0, 1] (Python `float("2/10")` raises), yet
`calculate_job_match_score` extracts the first regex match `"1"` from it and
returns 1.0, not the 0.5 failure default. -/
theorem match_score_malformed_counterexample :
    calculateJobMatchScore (AIOutcome.content "2/10") = 1 ∧
      calculateJobMatchScore (AIOutcome.content "2/10") ≠ 1 / 2 := by
  have h : calculateJobMatchScore (AIOutcome.content "2/10") = 1 := by decide
  refine ⟨h, ?_⟩
  rw [h]
  norm_num

/-! ## C4: `generate_answers` key subset and blocking behaviour -/

theorem mem_dictInsert (d : List (String × String)) (k v : String)
    (p : String × String) (h : p ∈ dictInsert d k v) : p.1 = k ∨ p ∈ d := by
  unfold dictInsert at h
  split at h
  · obtain ⟨q, hq, hpq⟩ := List.mem_map.mp h
    by_cases hk : (q.1 == k) = true
    · rw [if_pos hk] at hpq
      left
      rw [← hpq]
    · rw [if_neg hk] at hpq
      right
      rw [← hpq]
      exact hq
  · rcases List.mem_append.mp h with hd | hsingle
    · right; exact hd
    · left
      rw [List.mem_singleton.mp hsingle]

theorem generateQaAnswersGo_mem (f : String → Except Unit String) :
    ∀ (qs : List String) (acc : List (String × String)) (p : String × String),
      p ∈ generateQaAnswersGo f qs acc → p ∈ acc ∨ p.1 ∈ qs := by
  intro qs
  induction qs with
  | nil =>
    intro acc p h
    exact Or.inl h
  | cons q rest ih =>
    intro acc p h
    unfold generateQaAnswersGo at h
    cases hf : f q with
    | ok a =>
      rw [hf] at h
      rcases ih _ p h with hacc | hrest
      · rcases mem_dictInsert _ _ _ _ hacc with hk | hin
        · right; rw [hk]; exact List.mem_cons_self q rest
        · left; exact hin
      · right; exact List.mem_cons_of_mem q hrest
    | error e =>
      rw [hf] at h
      exact Or.inl h

/-- The successfully-answered prefix of the question list, folded into a
dict exactly the way the loop folds it. -/
def answeredUpTo (f : String → Except Unit String) (qs : List String) :
    List (String × String) :=
  (qs.takeWhile (fun q => (f q).toOption.isSome)).foldl
    (fun acc q => dictInsert acc q (pyStrip ((f q).toOption.getD ""))) []

theorem generateQaAnswersGo_eq_foldl (f : String → Except Unit String) :
    ∀ (qs : List String) (acc : List (String × String)),
      generateQaAnswersGo f qs acc =
        (qs.takeWhile (fun q => (f q).toOption.isSome)).foldl
          (fun a q => dictInsert a q (pyStrip ((f q).toOption.getD ""))) acc := by
  intro qs
  induction qs with
  | nil => intro acc; simp [generateQaAnswersGo]
  | cons q rest ih =>
    intro acc
    unfold generateQaAnswersGo
    cases hf : f q with
    | ok a =>
      rw [List.takeWhile_cons]
      simp only [hf, Except.toOption, Option.isSome_some, if_pos, List.foldl_cons,
        Option.getD_some]
      exact ih _
    | error e =>
      rw [List.takeWhile_cons]
      simp [hf, Except.toOption]

/-- Claim C4 (amended): `generate_qa_answers` returns a dict whose key set
is a subset of the input questions, never raises past its boundary (it is a
total function of the collaborator's behaviour), and returns the empty dict
when the client is missing; but the questions are processed sequentially
inside one `try`, so the result is exactly the fold of the successfully
answered prefix — a collaborator failure on one question drops all the
remaining questions (refuted independence is witnessed by
`generate_answers_blocking_counterexample`). -/
theorem generate_answers_amended (client : Option (String → Except Unit String))
    (qs : List String) :
    (∀ p ∈ generateQaAnswers client qs, p.1 ∈ qs) ∧
      generateQaAnswers none qs = [] ∧
      (∀ f, client = some f →
        generateQaAnswers client qs = answeredUpTo f qs) := by
  refine ⟨?_, rfl, ?_⟩
  · intro p hp
    cases client with
    | none => simp [generateQaAnswers] at hp
    | some f =>
      rcases generateQaAnswersGo_mem f qs [] p hp with hacc | hqs
      · simp at hacc
      · exact hqs
  · rintro f rfl
    exact generateQaAnswersGo_eq_foldl f qs []

/-- Witness for `generate_answers_amended`: a concrete client that answers
the first question and fails on the second yields exactly the one-entry
dict, and the missing-client case yields the empty dict. -/
theorem generate_answers_amended_witness :
    generateQaAnswers none ["A", "B", "C"] = [] ∧
      generateQaAnswers
          (some (fun q => if q = "B" then Except.error () else Except.ok "ans"))
          ["A", "B", "C"] =
        answeredUpTo (fun q => if q = "B" then Except.error () else Except.ok "ans")
          ["A", "B", "C"] :=
  ⟨(generate_answers_amended none ["A", "B", "C"]).2.1,
   (generate_answers_amended
      (some (fun q => if q = "B" then Except.error () else Except.ok "ans"))
      ["A", "B", "C"]).2.2 _ rfl⟩

/-- Counterexample to claim C4 as stated: with a collaborator that fails
only on question "B" (it would happily answer "C"), the returned dict is
just the entry for "A" — the failure on "B" blocked the answer for "C", so
the questions are not answered independently. -/
theorem generate_answers_blocking_counterexample :
    generateQaAnswers
        (some (fun q => if q = "B" then Except.error () else Except.ok "ans"))
        ["A", "B", "C"] = [("A", "ans")] ∧
      (fun q => if q = "B" then (Except.error () : Except Unit String)
        else Except.ok "ans") "C" = Except.ok "ans" ∧
      ¬ ("C", "ans") ∈ generateQaAnswers
        (some (fun q => if q = "B" then Except.error () else Except.ok "ans"))
        ["A", "B", "C"] := by
  refine ⟨by decide, rfl, by decide⟩

/-! ## C10: registration / authentication round trip -/

/-- The empty database, as `init_database` creates it. -/
def emptyStore : Store :=
  { users := [], profiles := [], jobs := [], applications := [], settings := [] }

/-- Claim C10: if `register_user` succeeds, `authenticate_user` with the
same username and password on the resulting store returns exactly the user
id that registration stored.  Password hashing is a function, so the login
hash equals the stored hash. -/
theorem register_authenticate_roundtrip (sha256hex : String → String)
    (dbOk : Bool) (newId username password email : String) (s : Store)
    (h : (registerUser sha256hex dbOk newId username password email s).1 = true) :
    authenticateUser sha256hex username password
      (registerUser sha256hex dbOk newId username password email s).2 = some newId := by
  unfold registerUser at h ⊢
  by_cases hc : (dbOk && s.users.all
      (fun u => u.username != username && u.id != newId)) = true
  · rw [if_pos hc] at h ⊢
    have hall := List.all_eq_true.mp (Bool.and_elim_right hc)
    unfold authenticateUser hashPassword
    dsimp only
    rw [List.filter_append]
    have hnil : s.users.filter
        (fun u => u.username == username && u.password_hash == sha256hex password)
          = [] := by
      rw [List.filter_eq_nil_iff]
      intro u hu
      have hne : (u.username != username && u.id != newId) = true := hall u hu
      have h1 : (u.username == username) = false := by
        have := Bool.and_elim_left hne
        simpa [bne] using this
      simp [h1]
    rw [hnil]
    simp [List.filter]
  · rw [if_neg hc] at h
    exact absurd h (by simp)

/-- Witness for `register_authenticate_roundtrip` with a concrete hash
function, user and empty store. -/
theorem register_authenticate_roundtrip_witness :
    authenticateUser (fun p => p ++ "#h") "alice" "pw"
      (registerUser (fun p => p ++ "#h") true "u1" "alice" "pw" "a@b.c"
        emptyStore).2 = some "u1" :=
  register_authenticate_roundtrip (fun p => p ++ "#h") true "u1" "alice" "pw"
    "a@b.c" emptyStore (by decide)

/-! ## C6: `update_status` on a non-matching (application, user) pair -/

/-- An application row owned by user "alice". -/
def c6AppRow : ApplicationRow :=
  { id := "app1", job_id := "j1", profile_id := "p1", user_id := "alice",
    status := "applied", applied_date := 0, cover_letter := "",
    custom_answers := none, response_received := false, notes := none }

/-- A store holding a single application owned by user "alice". -/
def c6Store : Store :=
  { users := [], profiles := [], jobs := [],
    applications := [c6AppRow], settings := [] }

/-- Counterexample to claim C6 as stated: calling `update_status` on
application "app1" (owned by "alice") as user "bob" modifies nothing, but
`execute_query` reports `True` — the operation reports success, not a
"not found" error. -/
theorem update_status_wrong_user_counterexample :
    updateApplicationStatus true "app1" "interview" "some notes" "bob" c6Store
      = (true, c6Store) := by
  decide

/-- Claim C6 (amended): when the (application id, user id) pair does not
resolve to any stored application — in particular when the application
belongs to a different user — `update_status` modifies no row and does not
crash, but it reports success (`True`) whenever the UPDATE statement
executes, instead of failing with a "not found" error. -/
theorem update_status_no_match (dbOk : Bool) (appId status notes userId : String)
    (s : Store)
    (h : ∀ a ∈ s.applications, ¬(a.id = appId ∧ a.user_id = userId)) :
    (updateApplicationStatus dbOk appId status notes userId s).2 = s ∧
      (updateApplicationStatus dbOk appId status notes userId s).1 = dbOk := by
  have hmap : s.applications.map (fun a =>
      if a.id == appId && a.user_id == userId then
        { a with status := status, notes := some notes } else a)
      = s.applications := by
    conv_rhs => rw [← List.map_id s.applications]
    apply List.map_congr_left
    intro a ha
    have hcond : (a.id == appId && a.user_id == userId) = false := by
      by_cases h1 : a.id = appId
      · by_cases h2 : a.user_id = userId
        · exact absurd ⟨h1, h2⟩ (h a ha)
        · simp [h2]
      · simp [h1]
    simp [hcond]
  unfold updateApplicationStatus dbWrite
  cases dbOk with
  | false => simp
  | true =>
    refine ⟨?_, rfl⟩
    show ({ s with applications := s.applications.map _ } : Store) = s
    rw [hmap]

/-- Witness for `update_status_no_match` at the concrete store: user "bob"
does not own application "app1". -/
theorem update_status_no_match_witness :
    (updateApplicationStatus true "app1" "interview" "n" "bob" c6Store).2
        = c6Store ∧
      (updateApplicationStatus true "app1" "interview" "n" "bob" c6Store).1
        = true :=
  update_status_no_match true "app1" "interview" "n" "bob" c6Store (by decide)

/-! ## C8: saving settings is a partial merge -/

theorem find?_replaceSettingsRow (rows : List SettingsRow) (uid : String)
    (v : SettingsView) :
    (replaceSettingsRow rows uid v).find? (fun r => r.user_id == uid) =
      some ⟨uid, v.openai_api_key, v.email_settings, v.automation_settings,
        v.notification_settings⟩ := by
  unfold replaceSettingsRow
  rw [List.find?_append]
  have h1 : (rows.filter (fun r => r.user_id != uid)).find?
      (fun r => r.user_id == uid) = none := by
    rw [List.find?_eq_none]
    intro r hr
    have hne := List.of_mem_filter hr
    simp [bne] at hne ⊢
    exact hne
  rw [h1]
  simp [List.find?]

/-- Claim C8: `save_user_settings` performs a partial merge — for a user
with a stored settings record, every category present in the update dict
overwrites the stored one and every absent category keeps its previously
stored value (`Option.getD` on each field states both at once). -/
theorem save_settings_partial_update (upd : SettingsUpdate) (uid : String)
    (s : Store) (v : SettingsView)
    (h : getUserSettings s uid = some v) :
    getUserSettings (saveUserSettings true upd uid s).2 uid = some
      { openai_api_key := upd.openai_api_key.getD v.openai_api_key,
        email_settings := upd.email_settings.getD v.email_settings,
        automation_settings := upd.automation_settings.getD v.automation_settings,
        notification_settings :=
          upd.notification_settings.getD v.notification_settings } := by
  unfold saveUserSettings dbWrite
  show getUserSettings { s with settings := replaceSettingsRow s.settings uid (mergedSettings (getUserSettings s uid) upd) } uid = _
  rw [h]
  unfold getUserSettings
  dsimp only
  rw [find?_replaceSettingsRow]
  simp [mergedSettings]

/-- A settings row for user "u1" with every category populated. -/
def c8Row : SettingsRow :=
  { user_id := "u1"
    openai_api_key := "sk-old"
    email_settings := some { from_email := "a@b.c", password := "p", smtp_server := "smtp.gmail.com", enabled := false }
    automation_settings := none
    notification_settings := some [("x", "y")] }

/-- A store holding only `c8Row`. -/
def c8Store : Store :=
  { users := [], profiles := [], jobs := [], applications := [],
    settings := [c8Row] }

/-- The view `get_user_settings` returns for `c8Store`. -/
def c8View : SettingsView :=
  { openai_api_key := "sk-old"
    email_settings := some { from_email := "a@b.c", password := "p", smtp_server := "smtp.gmail.com", enabled := false }
    automation_settings := none
    notification_settings := some [("x", "y")] }

/-- An update that specifies only the email settings category. -/
def c8Update : SettingsUpdate :=
  { openai_api_key := none
    email_settings := some (some { from_email := "n@b.c", password := "q", smtp_server := "smtp.new", enabled := true })
    automation_settings := none
    notification_settings := none }

/-- Witness for `save_settings_partial_update`: updating only the email
category overwrites it while the API key and the other categories keep
their stored values. -/
theorem save_settings_partial_update_witness :
    getUserSettings (saveUserSettings true c8Update "u1" c8Store).2 "u1" = some
      { openai_api_key := c8Update.openai_api_key.getD c8View.openai_api_key,
        email_settings := c8Update.email_settings.getD c8View.email_settings,
        automation_settings :=
          c8Update.automation_settings.getD c8View.automation_settings,
        notification_settings :=
          c8Update.notification_settings.getD c8View.notification_settings } :=
  save_settings_partial_update c8Update "u1" c8Store c8View (by decide)

/-! ## C9: account deletion removes the user's rows and spares the jobs -/

/-- Claim C9: when the four DELETE statements execute,
`delete_user_account` removes exactly the applications, profiles and
settings rows owned by the user (stated as filter equations, which also
show every other user's rows survive) and leaves the shared jobs table
unchanged. -/
theorem delete_user_account_spec (uid : String) (s : Store) :
    (deleteUserAccount true true true true uid s).applications
        = s.applications.filter (fun a => a.user_id != uid) ∧
      (deleteUserAccount true true true true uid s).profiles
        = s.profiles.filter (fun p => p.user_id != uid) ∧
      (deleteUserAccount true true true true uid s).settings
        = s.settings.filter (fun r => r.user_id != uid) ∧
      (deleteUserAccount true true true true uid s).jobs = s.jobs ∧
      (∀ a ∈ (deleteUserAccount true true true true uid s).applications,
        a.user_id ≠ uid) ∧
      (∀ p ∈ (deleteUserAccount true true true true uid s).profiles,
        p.user_id ≠ uid) ∧
      (∀ r ∈ (deleteUserAccount true true true true uid s).settings,
        r.user_id ≠ uid) := by
  refine ⟨rfl, rfl, rfl, rfl, ?_, ?_, ?_⟩
  all_goals
    intro x hx
    have hne := List.of_mem_filter hx
    simpa [bne] using hne

/-- A store with rows for users "u1" and "u2" and one shared job. -/
def c9Job : JobRow :=
  { id := "j1", title := "T", company := "C", location := "L",
    description := "D", url := "U", salary_range := "S", source := "indeed" }

/-- A profile row owned by "u1". -/
def c9Profile : ProfileRow :=
  { id := "p1", user_id := "u1", name := "P", skills := "a,b",
    experience := "e", summary := "s", target_positions := "t" }

/-- A profile row owned by "u2". -/
def c9Profile2 : ProfileRow :=
  { id := "p2", user_id := "u2", name := "Q", skills := "c",
    experience := "e2", summary := "s2", target_positions := "t2" }

/-- Store used to witness `delete_user_account_spec`. -/
def c9Store : Store :=
  { users := [], profiles := [c9Profile, c9Profile2], jobs := [c9Job],
    applications := [c6AppRow], settings := [c8Row] }

/-- Witness for `delete_user_account_spec` on a concrete store: user "u1"
loses its profile and settings, "u2" keeps its profile, the job survives. -/
theorem delete_user_account_spec_witness :
    (deleteUserAccount true true true true "u1" c9Store).profiles
        = c9Store.profiles.filter (fun p => p.user_id != "u1") ∧
      (deleteUserAccount true true true true "u1" c9Store).settings
        = c9Store.settings.filter (fun r => r.user_id != "u1") ∧
      (deleteUserAccount true true true true "u1" c9Store).jobs
        = c9Store.jobs :=
  ⟨(delete_user_account_spec "u1" c9Store).2.1,
   (delete_user_account_spec "u1" c9Store).2.2.1,
   (delete_user_account_spec "u1" c9Store).2.2.2.1⟩

/-! ## C3: data export and the stored credentials -/

/-- A settings row for user "u1" whose email settings hold the email
password "hunter2" and whose AI credential is "sk-secret". -/
def c3Row : SettingsRow :=
  { user_id := "u1"
    openai_api_key := "sk-secret"
    email_settings := some { from_email := "a@b.c", password := "hunter2", smtp_server := "smtp.gmail.com", enabled := true }
    automation_settings := none
    notification_settings := none }

/-- A store holding only `c3Row`. -/
def c3Store : Store :=
  { users := [], profiles := [], jobs := [], applications := [],
    settings := [c3Row] }

/-- Claim C3 is violated by the code: `export_user_data` filters only the
`openai_api_key` key out of the settings dict, so the email credential
stored inside `email_settings` is carried into the export document intact.
Evaluating the export for `c3Store` shows the password "hunter2" present. -/
theorem export_contains_email_password :
    ((exportUserData c3Store "u1").settings.email_settings).map
        EmailSettings.password = some "hunter2" := by
  decide

/-! ## C1: `apply` inserts exactly one row or nothing -/

/-- Claim C1: `apply_to_job` either reports success having appended exactly
one applications row with status `'applied'` (its cover letter is a
`String`, i.e. non-null, possibly empty), or reports failure leaving the
store untouched; the other tables are never touched either — no partial
Application is persisted on any path (profile not found, INSERT failure). -/
theorem apply_atomic (dbOk : Bool) (assistant : Option (AIOutcome String))
    (outerRaise : Bool) (job : JobRow) (selectedProfileName : String)
    (profiles : List ProfileView) (userId appId : String) (now : Nat)
    (smtp : Except String Unit) (s : Store) (r : ApplyOutcome)
    (hr : r = applyToJob dbOk assistant outerRaise job selectedProfileName
      profiles userId appId now smtp s) :
    (r.succeeded = true →
      ∃ row : ApplicationRow,
        r.store.applications = s.applications ++ [row] ∧
          row.status = "applied" ∧ row.user_id = userId ∧
          row.job_id = job.id ∧ row.applied_date = now) ∧
      (r.succeeded = false → r.store = s) ∧
      r.store.users = s.users ∧ r.store.profiles = s.profiles ∧
      r.store.jobs = s.jobs ∧ r.store.settings = s.settings := by
  subst hr
  unfold applyToJob
  cases hf : profiles.find? (fun p => p.name == selectedProfileName) with
  | none =>
    exact ⟨fun h => absurd h (by simp), fun _ => rfl, rfl, rfl, rfl, rfl⟩
  | some pd =>
    unfold dbWrite
    cases dbOk with
    | false =>
      exact ⟨fun h => absurd h (by simp), fun _ => rfl, rfl, rfl, rfl, rfl⟩
    | true =>
      refine ⟨fun _ => ⟨_, rfl, rfl, rfl, rfl, rfl⟩,
        fun h => absurd h (by simp), rfl, rfl, rfl, rfl⟩

/-- A profile view named "P" for user "u1". -/
def w1Profile : ProfileView :=
  { id := "p1", name := "P", skills := "Python,SQL", experience := "exp",
    summary := "sum", target_positions := "Backend" }

/-- Witness for `apply_atomic` on the success path: applying with a found
profile and a working store appends exactly one applied row to the empty
store. -/
theorem apply_atomic_witness :
    (applyToJob true none false c9Job "P" [w1Profile] "u1" "a1" 7
        (Except.ok ()) emptyStore).succeeded = true ∧
      ∃ row : ApplicationRow,
        (applyToJob true none false c9Job "P" [w1Profile] "u1" "a1" 7
            (Except.ok ()) emptyStore).store.applications
          = emptyStore.applications ++ [row] ∧
          row.status = "applied" ∧ row.user_id = "u1" ∧
          row.job_id = c9Job.id ∧ row.applied_date = 7 :=
  ⟨by decide,
   (apply_atomic true none false c9Job "P" [w1Profile] "u1" "a1" 7
      (Except.ok ()) emptyStore _ rfl).1 (by decide)⟩

/-! ## C7: notification failure does not alter apply's outcome or state -/

/-- Claim C7: the SMTP outcome of the best-effort notification influences
neither the reported success of `apply_to_job` nor any field of the
persisted store — `send_email_notification` catches every failure and only
emits a warning, after the Application row is already committed. -/
theorem notification_failure_frame (dbOk : Bool)
    (assistant : Option (AIOutcome String)) (outerRaise : Bool) (job : JobRow)
    (selectedProfileName : String) (profiles : List ProfileView)
    (userId appId : String) (now : Nat) (s : Store)
    (o1 o2 : Except String Unit) :
    (applyToJob dbOk assistant outerRaise job selectedProfileName profiles
        userId appId now o1 s).succeeded =
      (applyToJob dbOk assistant outerRaise job selectedProfileName profiles
        userId appId now o2 s).succeeded ∧
      (applyToJob dbOk assistant outerRaise job selectedProfileName profiles
        userId appId now o1 s).store =
        (applyToJob dbOk assistant outerRaise job selectedProfileName profiles
          userId appId now o2 s).store := by
  unfold applyToJob
  cases hf : profiles.find? (fun p => p.name == selectedProfileName) with
  | none => exact ⟨rfl, rfl⟩
  | some pd =>
    unfold dbWrite
    cases dbOk with
    | false => exact ⟨rfl, rfl⟩
    | true => exact ⟨rfl, rfl⟩

/-! ## C5: fallback cover letter scenario -/

theorem infix_append_left (x s t : String) (h : x.data <:+: s.data) :
    x.data <:+: (s ++ t).data := by
  rw [String.data_append]
  exact h.trans ⟨[], t.data, by simp⟩

theorem infix_append_right (x s t : String) (h : x.data <:+: t.data) :
    x.data <:+: (s ++ t).data := by
  rw [String.data_append]
  exact h.trans ⟨s.data, [], by simp⟩

theorem title_infix_fallback (job : JobRow) (profile : JobProfile) :
    job.title.data <:+: (fallbackCoverLetter job profile).data := by
  unfold fallbackCoverLetter
  apply infix_append_left
  apply infix_append_left
  apply infix_append_left
  apply infix_append_left
  apply infix_append_left
  apply infix_append_left
  apply infix_append_left
  apply infix_append_left
  apply infix_append_left
  exact infix_append_right _ _ _ (List.infix_refl _)

theorem company_infix_fallback (job : JobRow) (profile : JobProfile) :
    job.company.data <:+: (fallbackCoverLetter job profile).data := by
  unfold fallbackCoverLetter
  apply infix_append_left
  apply infix_append_left
  apply infix_append_left
  apply infix_append_left
  apply infix_append_left
  apply infix_append_left
  apply infix_append_left
  exact infix_append_right _ _ _ (List.infix_refl _)

/-- Claim C5: for any profile with skills "Python,SQL" and any job titled
"Backend Engineer" at "Acme", when the generation collaborator is
unavailable (the OpenAI client failed to initialise, or the API call
raised — any non-`content` outcome) and the INSERT succeeds,
`apply_to_job` creates an application with status `'applied'` whose cover
letter is the deterministic fallback template and therefore contains both
"Backend Engineer" and "Acme". -/
theorem apply_fallback_scenario (g : AIOutcome String) (job : JobRow)
    (pv : ProfileView) (userId appId : String) (now : Nat)
    (smtp : Except String Unit) (s : Store)
    (hg : ∀ t, g ≠ AIOutcome.content t)
    (ht : job.title = "Backend Engineer") (hc : job.company = "Acme")
    (hsk : pv.skills = "Python,SQL") :
    (applyToJob true (some g) false job pv.name [pv] userId appId now smtp
        s).succeeded = true ∧
      ∃ row : ApplicationRow,
        (applyToJob true (some g) false job pv.name [pv] userId appId now smtp
            s).store.applications = s.applications ++ [row] ∧
          row.status = "applied" ∧
          "Backend Engineer".data <:+: row.cover_letter.data ∧
          "Acme".data <:+: row.cover_letter.data := by
  have hfind : ([pv].find? (fun p => p.name == pv.name)) = some pv := by
    simp [List.find?]
  unfold applyToJob
  rw [hfind]
  unfold dbWrite
  have hcover : ∀ profile : JobProfile, generateCoverLetter job profile g
      = fallbackCoverLetter job profile := by
    intro profile
    cases g with
    | unavailable => rfl
    | err => rfl
    | content t => exact absurd rfl (hg t)
  refine ⟨rfl, ?_⟩
  refine ⟨_, rfl, rfl, ?_, ?_⟩
  · show "Backend Engineer".data <:+: (generateCoverLetter job _ g).data
    rw [hcover, ← ht]
    exact title_infix_fallback job _
  · show "Acme".data <:+: (generateCoverLetter job _ g).data
    rw [hcover, ← hc]
    exact company_infix_fallback job _

/-- Witness for `apply_fallback_scenario`: the concrete Backend Engineer /
Acme job, the "Python,SQL" profile, an unavailable client and the empty
store. -/
theorem apply_fallback_scenario_witness :
    (applyToJob true (some AIOutcome.unavailable) false
        { id := "j2", title := "Backend Engineer", company := "Acme",
          location := "", description := "", url := "", salary_range := "",
          source := "manual" } "P" [w1Profile] "u1" "a2" 3 (Except.ok ())
        emptyStore).succeeded = true ∧
      ∃ row : ApplicationRow,
        (applyToJob true (some AIOutcome.unavailable) false
            { id := "j2", title := "Backend Engineer", company := "Acme",
              location := "", description := "", url := "", salary_range := "",
              source := "manual" } "P" [w1Profile] "u1" "a2" 3 (Except.ok ())
            emptyStore).store.applications = emptyStore.applications ++ [row] ∧
          row.status = "applied" ∧
          "Backend Engineer".data <:+: row.cover_letter.data ∧
          "Acme".data <:+: row.cover_letter.data :=
  apply_fallback_scenario AIOutcome.unavailable
    { id := "j2", title := "Backend Engineer", company := "Acme",
      location := "", description := "", url := "", salary_range := "",
      source := "manual" } w1Profile "u1" "a2" 3 (Except.ok ()) emptyStore
    (fun t h => AIOutcome.noConfusion h) rfl rfl rfl

end JobApp
